import Mathlib

/-!
Shallow embedding of `gladiatranscribe/transcription.py` (the maubot plugin
`GladiaTranscribe`): the inbound message handler, the transcription client
calls `upload_audio` and `request_transcription`, the job registry
(`self.polls`), the poll loop `_poll_transcriptions`, and the loop controller
`start_poll_task` / `start`.

Modelling conventions:
- JSON response bodies are a small inductive `Json` (strings and objects);
  Python subscript `d['k']` is `jget`, where a missing key models the
  `KeyError` the subscript would raise.
- The shared `self.http` session's default headers are an association list
  `Headers`; Python's `self.http.headers[k] = v` is `setHeader`.
- An HTTP poll of one job (`self.http.get(poll.url)` followed by
  `response.json()`) either yields a JSON body or raises
  (`PollResult.raise2` covers any transport/HTTP exception of the pair).
- `use_transcription` awaits `poll.evt.reply(transc)`; a dispatch is recorded
  as a `DispatchEvent` carrying the reply target (`poll.evt`), the value
  passed as `transc`, and the value of `self.polls` at the moment the await
  happens (the for-loop never assigns `self.polls`; the swap
  `self.polls = newPolls` runs only after the loop).
- `asyncio.CancellationToken` (as the source spells it) is modelled as an
  abstract token whose `cancelled()` / `is_cancelled()` both read one flag;
  `asyncio.Task.done()` is a flag as well.
-/

/-- A JSON value as far as the plugin inspects one: strings and objects
(other shapes never matter to the code's subscripts and comparisons). -/
inductive Json where
  | str : String → Json
  | obj : List (String × Json) → Json

/-- Field lookup in a JSON object's field list, first binding wins. -/
def jgetFields : List (String × Json) → String → Option Json
  | [], _ => none
  | (k2, v) :: rest, k => if k2 == k then some v else jgetFields rest k

/-- Python subscript `j['k']`: `none` models the `KeyError` raised when the
key is absent or the value is not an object. -/
def jget : Json → String → Option Json
  | Json.str _, _ => none
  | Json.obj fs, k => jgetFields fs k

/-- Python comparison `response_json['status'] == 'done'`: true exactly when
the JSON value is the string "done". -/
def isDone : Json → Bool
  | Json.str s => s == "done"
  | Json.obj _ => false

/-- The shared HTTP session's default headers (`self.http.headers`). -/
abbrev Headers : Type := List (String × String)

/-- Python `self.http.headers[k] = v`: the binding for `k` becomes `v`. -/
def setHeader (hs : Headers) (k v : String) : Headers :=
  (k, v) :: (hs : List (String × String)).filter (fun p => p.1 != k)

/-- Reading a header value from the session headers. -/
def lookupHeader : Headers → String → Option String
  | [], _ => none
  | (k, v) :: rest, q => if k == q then some v else lookupHeader rest q

/-- The class `TranscriptionPoll(url, evt)`: one registry entry. The
originating `MessageEvent` is identified by an opaque id. -/
structure TranscriptionPoll where
  url : String
  evt : Nat
deriving DecidableEq, Repr

/-- Outcome of `self.http.get(poll.url)` plus `response.json()` for one job:
either a JSON body, or an exception from the transport (`raise2`). -/
inductive PollResult where
  | raise2 : PollResult
  | json : Json → PollResult

/-- One recorded call of `use_transcription`: who the reply is addressed to
(`poll.evt`), the value passed as `transc`, and the contents of `self.polls`
at the moment the call is awaited. -/
structure DispatchEvent where
  target : Nat
  payload : Json
  pollsAtDispatch : List TranscriptionPoll

/-- Result of running the `for poll in self.polls` body to its end or to the
first exception: the dispatches performed so far, the session headers, and
`completed = some newPolls` when the loop finished (so the swap
`self.polls = newPolls` happens) or `none` when an exception aborted it
(the swap is skipped and `self.polls` is left as it was). -/
structure RoundCore where
  dispatches : List DispatchEvent
  headers : Headers
  completed : Option (List TranscriptionPoll)

/-- The `for poll in self.polls` loop of `_poll_transcriptions`, iterating
over `todo` with accumulator `newPolls`, dispatch log `evs` and session
headers `hs`. `pollsAll` is the value of `self.polls` for the whole round
(never assigned inside the loop). Per job: set the `x-gladia-key` header,
poll the url; on an exception abort the round; read `['status']`; on
`== 'done'` evaluate `['result']['transcription']` and await
`use_transcription` (the job is not kept); otherwise append the job to
`newPolls`. -/
def runFor (key : String) (resp : String → PollResult)
    (pollsAll : List TranscriptionPoll) :
    List TranscriptionPoll → List TranscriptionPoll → List DispatchEvent →
    Headers → RoundCore
  | [], newPolls, evs, hs => ⟨evs, hs, some newPolls⟩
  | p :: rest, newPolls, evs, hs =>
    let hs1 := setHeader hs "x-gladia-key" key
    match resp p.url with
    | PollResult.raise2 => ⟨evs, hs1, none⟩
    | PollResult.json j =>
      match jget j "status" with
      | none => ⟨evs, hs1, none⟩
      | some s =>
        if isDone s then
          match (jget j "result").bind (fun r => jget r "transcription") with
          | none => ⟨evs, hs1, none⟩
          | some t =>
            runFor key resp pollsAll rest newPolls
              (evs ++ [⟨p.evt, t, pollsAll⟩]) hs1
        else runFor key resp pollsAll rest (newPolls ++ [p]) evs hs1

/-- State after one iteration of the `while` body of `_poll_transcriptions`:
the dispatches of the round, the value of `self.polls` afterwards, the
session headers, and whether the loop stopped (`self._cancellation_token
.cancel()` followed by `break`). -/
structure RoundState where
  dispatches : List DispatchEvent
  polls : List TranscriptionPoll
  headers : Headers
  stopped : Bool

/-- One iteration of the `while not self._cancellation_token.is_cancelled()`
body: run the for-loop; on an exception the `except` clause catches it
(`self.polls` untouched, loop continues); on completion swap in `newPolls`
and, if now empty, cancel the token and break; otherwise sleep and
continue. -/
def pollStep (key : String) (resp : String → PollResult)
    (polls : List TranscriptionPoll) (hs : Headers) : RoundState :=
  match runFor key resp polls polls [] [] hs with
  | ⟨evs, hs2, none⟩ => ⟨evs, polls, hs2, false⟩
  | ⟨evs, hs2, some newPolls⟩ =>
    if newPolls.isEmpty then ⟨evs, newPolls, hs2, true⟩
    else ⟨evs, newPolls, hs2, false⟩

/-- The whole `while` loop of `_poll_transcriptions`, run for at most `fuel`
rounds starting at round index `k`; `env` gives each round's poll outcomes.
Returns the dispatches tagged with their round index, the final
`self.polls`, and whether the loop stopped on its own. -/
def pollLoopAux (key : String) (env : Nat → String → PollResult) :
    Nat → Nat → List TranscriptionPoll → Headers →
    List (Nat × DispatchEvent) →
    List (Nat × DispatchEvent) × List TranscriptionPoll × Bool
  | _, 0, polls, _, acc => (acc, polls, false)
  | k, fuel + 1, polls, hs, acc =>
    let st := pollStep key (env k) polls hs
    let acc2 := acc ++ st.dispatches.map (fun e => (k, e))
    if st.stopped then (acc2, st.polls, true)
    else pollLoopAux key env (k + 1) fuel st.polls st.headers acc2

/-- Outcome of a transcription client call: the value the Python function
returns (`none` models the bare `return` after logging the error), or the
`KeyError` the success path would raise on a malformed body. -/
inductive CallOutcome where
  | ret : Option Json → CallOutcome
  | keyError : CallOutcome

/-- A client call's effect: the shared session headers afterwards, and the
returned value. -/
structure ClientCall where
  headers : Headers
  result : CallOutcome

/-- An HTTP response as the client inspects it: status code and JSON body. -/
structure HttpResponse where
  status : Nat
  body : Json

/-- `upload_audio(self, data)` (the body, given the response the POST to the
upload endpoint yields): stores the API key and a Content-Type into the
shared session headers, then `if response.status != 200` logs and returns
`None`; on 200 returns `response_json['audio_url']`. -/
def upload_audio (api_key : String) (hs : Headers) (resp : HttpResponse) :
    ClientCall :=
  let h1 := setHeader hs "x-gladia-key" api_key
  let h2 := setHeader h1 "Content-Type" "multipart/form-data"
  if resp.status ≠ 200 then ⟨h2, CallOutcome.ret none⟩
  else
    match jget resp.body "audio_url" with
    | none => ⟨h2, CallOutcome.keyError⟩
    | some v => ⟨h2, CallOutcome.ret (some v)⟩

/-- `request_transcription(self, audio_url)` (the body, given the response
the POST to the pre-recorded endpoint yields): stores the API key into the
shared session headers, then `if response.status != 200` logs and returns
`None`; on 200 returns `response_json['result_url']`. -/
def request_transcription (api_key : String) (hs : Headers)
    (resp : HttpResponse) : ClientCall :=
  let h1 := setHeader hs "x-gladia-key" api_key
  if resp.status ≠ 200 then ⟨h1, CallOutcome.ret none⟩
  else
    match jget resp.body "result_url" with
    | none => ⟨h1, CallOutcome.keyError⟩
    | some v => ⟨h1, CallOutcome.ret (some v)⟩

/-- Number of parameters `upload_audio` declares:
`async def upload_audio(self, data)`. -/
def upload_audio_param_count : Nat := 2

/-- Number of positional arguments the handler's call
`self.upload_audio(self, data)` passes: the bound receiver, then `self`,
then `data`. -/
def upload_audio_call_arg_count : Nat := 3

/-- A room message event as the handler inspects it: its message type, the
optional plain media url (`content.url`), the optional encrypted media
descriptor (`content.file`), and an id standing for the event itself. -/
structure MsgEvent where
  audioType : Bool
  url : Option String
  encFile : Option String
  id : Nat
deriving DecidableEq, Repr

/-- Outcome of one run of the event handler: it returned normally, or it
raised `TypeError`; in both cases the value of `self.polls` afterwards. -/
inductive HandlerOutcome where
  | returned : List TranscriptionPoll → HandlerOutcome
  | typeErrorRaised : List TranscriptionPoll → HandlerOutcome
deriving DecidableEq, Repr

/-- `transcribe_audio_message(self, evt)`: return unless the message type is
audio; download plain (`content.url`) or encrypted (`content.file`) media,
or warn and return when neither is present. After a successful download the
handler evaluates `audio_url = await self.upload_audio(self, data)`: the
bound-method call passes `upload_audio_call_arg_count` positional arguments
to a function declaring `upload_audio_param_count` parameters, so Python
raises `TypeError` there — before `self.polls.append(...)` and
`self.start_poll_task()` are ever reached. -/
def transcribe_audio_message (polls : List TranscriptionPoll)
    (evt : MsgEvent) : HandlerOutcome :=
  if !evt.audioType then HandlerOutcome.returned polls
  else
    match evt.url, evt.encFile with
    | some _, _ => HandlerOutcome.typeErrorRaised polls
    | none, some _ => HandlerOutcome.typeErrorRaised polls
    | none, none => HandlerOutcome.returned polls

/-- The controller fields of the plugin: `_cancellation_token` (Python
`None`, or a token whose `cancelled()` flag is given) and `_poll_task`
(Python `None`, or a task whose `done()` flag is given). -/
structure ControllerState where
  token : Option Bool
  task : Option Bool
deriving DecidableEq, Repr

/-- `start(self)`: assigns a fresh (not cancelled) token to
`_cancellation_token` and `None` to `_poll_task`. -/
def plugin_start : ControllerState :=
  ⟨some false, none⟩

/-- `start_poll_task(self)`: if `(_cancellation_token is not None and not
_cancellation_token.cancelled()) or (_poll_task is not None and not
_poll_task.done())` then log "already running" and return; otherwise install
a fresh token and create the poll task. The Bool result records whether a
new task was created. -/
def start_poll_task (s : ControllerState) : ControllerState × Bool :=
  let tokenActive := match s.token with
    | none => false
    | some c => !c
  let taskActive := match s.task with
    | none => false
    | some d => !d
  if tokenActive || taskActive then (s, false)
  else (⟨some false, some false⟩, true)

/-- A poll response body in the provider's completed shape: `status` is
"done" and `result.transcription` is an object holding `full_transcript`. -/
def doneBody (txt : String) : Json :=
  Json.obj [("status", Json.str "done"),
    ("result", Json.obj [("transcription",
      Json.obj [("full_transcript", Json.str txt)])])]

/-- A poll response body for a job that is still processing. -/
def pendingBody : Json :=
  Json.obj [("status", Json.str "processing")]

/-- A job whose poll raises nothing this round: the transport yields a JSON
body with a `status` key, and if the status is "done" the
`result.transcription` subscripts succeed as well. -/
def processes_cleanly (resp : String → PollResult)
    (q : TranscriptionPoll) : Prop :=
  ∃ j s, resp q.url = PollResult.json j ∧ jget j "status" = some s ∧
    (isDone s = false ∨
      ∃ t, (jget j "result").bind (fun r => jget r "transcription") = some t)

/-- Concrete registry for the round-abort scenario: three jobs. -/
def C4polls : List TranscriptionPoll := [⟨"ua", 1⟩, ⟨"ub", 2⟩, ⟨"uc", 3⟩]

/-- Poll outcomes for the round-abort scenario: the first job is done, the
second job's transport raises, the third is still pending. -/
def C4resp : String → PollResult := fun u =>
  if u = "ua" then PollResult.json (doneBody "first")
  else if u = "ub" then PollResult.raise2
  else PollResult.json pendingBody

/-- A single registry entry for the completed-job dispatch scenario. -/
def C5poll : TranscriptionPoll := ⟨"u5", 5⟩

/-- Poll outcomes for the completed-job dispatch scenario: done, with a
transcription object whose `full_transcript` is "hello world". -/
def C5resp : String → PollResult := fun _ =>
  PollResult.json (doneBody "hello world")

/-- Upload response body carrying the remote asset identifier. -/
def C7body : Json := Json.obj [("audio_url", Json.str "https://bucket/a.ogg")]

/-- Transcription-request response body carrying the poll reference. -/
def C7body2 : Json := Json.obj [("result_url", Json.str "https://api/poll/1")]

/-- Job J of the duplicate-dispatch scenario. -/
def C8J : TranscriptionPoll := ⟨"ju", 1⟩

/-- Job E of the duplicate-dispatch scenario, polled after J. -/
def C8E : TranscriptionPoll := ⟨"eu", 2⟩

/-- Round-indexed poll outcomes for the duplicate-dispatch scenario: in round
0 job J's transport raises; in round 1 J is done but E's transport raises; in
round 2 everything is done. -/
def C8env : Nat → String → PollResult := fun k u =>
  if k = 0 then PollResult.raise2
  else if k = 1 then
    (if u = "ju" then PollResult.json (doneBody "jay") else PollResult.raise2)
  else PollResult.json (doneBody "any")

/-- Round-indexed poll outcomes for the single-job recovery scenario: the
transport raises in round 0 and every later round is done. -/
def C8wenv : Nat → String → PollResult := fun k _ =>
  if k = 0 then PollResult.raise2 else PollResult.json (doneBody "solo")

/-- A single registry entry for the removal-order scenario. -/
def C9poll : TranscriptionPoll := ⟨"u9", 9⟩

/-- Poll outcomes for the removal-order scenario: the job is done. -/
def C9resp : String → PollResult := fun _ => PollResult.json (doneBody "nine")

/-! Theorems about the embedded program, one per claim. -/

/-- C1: claim — a Job is added to the registry if and only if media fetch,
submitAudio and requestTranscription all succeed. Evaluation of the handler
at a failing input: an audio message with a plain media url, for which the
download and both remote calls would succeed, still raises `TypeError` at
the call `self.upload_audio(self, data)` and leaves the registry empty — no
job is created even on the all-success path. -/
theorem C1_no_job_on_success_path :
    transcribe_audio_message [] ⟨true, some "mxc://server/audio", none, 7⟩ =
      HandlerOutcome.typeErrorRaised [] ∧
    upload_audio_call_arg_count = upload_audio_param_count + 1 := by
  constructor
  · rfl
  · rfl

/-- C2: for every audio message whose media fetch succeeds (a plain url or
an encrypted file descriptor is present), the handler raises `TypeError` at
the `self.upload_audio(self, data)` call — one positional argument more than
`upload_audio` declares — and `self.polls` is left unchanged: no job is
added on this path. -/
theorem C2_typeerror_aborts_handler (polls : List TranscriptionPoll)
    (evt : MsgEvent) (haud : evt.audioType = true)
    (hmedia : evt.url.isSome = true ∨ evt.encFile.isSome = true) :
    transcribe_audio_message polls evt = HandlerOutcome.typeErrorRaised polls ∧
    upload_audio_call_arg_count = upload_audio_param_count + 1 := by
  refine ⟨?_, rfl⟩
  unfold transcribe_audio_message
  rw [haud]
  cases hu : evt.url with
  | some u => simp
  | none =>
    cases hf : evt.encFile with
    | some f => simp
    | none =>
      rcases hmedia with h | h
      · rw [hu] at h; simp at h
      · rw [hf] at h; simp at h

/-- C2 witness: the handler at a concrete audio message with an encrypted
file descriptor. -/
theorem C2_typeerror_aborts_handler_witness :
    transcribe_audio_message [⟨"u0", 3⟩] ⟨true, none, some "enc", 9⟩ =
      HandlerOutcome.typeErrorRaised [⟨"u0", 3⟩] ∧
    upload_audio_call_arg_count = upload_audio_param_count + 1 :=
  C2_typeerror_aborts_handler [⟨"u0", 3⟩] ⟨true, none, some "enc", 9⟩ rfl
    (Or.inr rfl)

/-- C3: claim — the first Registry.add after process start starts the
background loop. Evaluation at the failing input: right after `start()` the
token is fresh (`cancelled()` is false) and `_poll_task` is `None`, so the
guard of `start_poll_task` is already true; the call logs "already running"
and returns without creating any task, and the state is unchanged. The poll
loop is never started after process start. -/
theorem C3_start_poll_task_noop_after_start :
    start_poll_task plugin_start = (plugin_start, false) := by
  rfl

/-- Helper: the session headers after `setHeader hs k v` map `k` to `v`. -/
theorem lookupHeader_set_self (hs : Headers) (k v : String) :
    lookupHeader (setHeader hs k v) k = some v := by
  simp [setHeader, lookupHeader]

/-- Helper: `pollStep` reports exactly the dispatches of its round's
for-loop run. -/
theorem pollStep_dispatches (key : String) (resp : String → PollResult)
    (polls : List TranscriptionPoll) (hs : Headers) :
    (pollStep key resp polls hs).dispatches =
      (runFor key resp polls polls [] [] hs).dispatches := by
  unfold pollStep
  rcases h : runFor key resp polls polls [] [] hs with ⟨evs, hs2, co⟩
  cases co with
  | none => simp
  | some np => cases hnp : np.isEmpty <;> simp [hnp]

/-- Helper: `pollStep` reports exactly the session headers its round's
for-loop run left behind. -/
theorem pollStep_headers (key : String) (resp : String → PollResult)
    (polls : List TranscriptionPoll) (hs : Headers) :
    (pollStep key resp polls hs).headers =
      (runFor key resp polls polls [] [] hs).headers := by
  unfold pollStep
  rcases h : runFor key resp polls polls [] [] hs with ⟨evs, hs2, co⟩
  cases co with
  | none => simp
  | some np => cases hnp : np.isEmpty <;> simp [hnp]

/-- C6: the poll loop's while-body stops the loop (cancels the token and
breaks) exactly when the round's for-loop ran to completion and the swapped-
in retained set is empty — the emptiness test reads `self.polls` after the
swap, i.e. after every job of the round was processed; an aborted round
(`completed = none`, e.g. a single job's transport error) never stops the
loop. -/
theorem C6_loop_stops_iff_round_empty (key : String)
    (resp : String → PollResult) (polls : List TranscriptionPoll)
    (hs : Headers) :
    (pollStep key resp polls hs).stopped = true ↔
      (runFor key resp polls polls [] [] hs).completed = some [] := by
  unfold pollStep
  rcases h : runFor key resp polls polls [] [] hs with ⟨evs, hs2, co⟩
  cases co with
  | none => simp
  | some np => cases np with
    | nil => simp
    | cons a l => simp

/-- C4 counterexample: the claim says that when one job's poll raises, every
other job of the round is still processed and retained according to its own
status, so at `C4polls` (first job done, second job's transport raises,
third pending) the retained set would be the second and third jobs. In the
code the `try` wraps the whole round: the exception skips the swap, so
`self.polls` is left at all three jobs — the done first job is retained too
and the third job was never polled this round. -/
theorem C4_error_not_confined_counterexample :
    (pollStep "K" C4resp C4polls []).polls = C4polls ∧
    C4polls ≠ [⟨"ub", 2⟩, ⟨"uc", 3⟩] := by
  constructor
  · rfl
  · decide

/-- Helper: if some job in the round's list raises and every job before it
processes cleanly, the for-loop aborts: `completed = none`. -/
theorem runFor_abort_of_raise (key : String) (resp : String → PollResult)
    (pollsAll : List TranscriptionPoll) (p : TranscriptionPoll)
    (hp : resp p.url = PollResult.raise2) :
    ∀ (pre post newPolls : List TranscriptionPoll)
      (evs : List DispatchEvent) (hs : Headers),
      (∀ q ∈ pre, processes_cleanly resp q) →
      ∃ evs2 hs2,
        runFor key resp pollsAll (pre ++ p :: post) newPolls evs hs =
          ⟨evs2, hs2, none⟩ := by
  intro pre
  induction pre with
  | nil =>
    intro post newPolls evs hs _
    exact ⟨evs, setHeader hs "x-gladia-key" key, by simp [runFor, hp]⟩
  | cons q rest ih =>
    intro post newPolls evs hs hclean
    obtain ⟨j, s, hj, hst, hcase⟩ := hclean q (List.mem_cons_self q rest)
    have hrest : ∀ r ∈ rest, processes_cleanly resp r :=
      fun r hr => hclean r (List.mem_cons_of_mem q hr)
    cases hd : isDone s with
    | false =>
      obtain ⟨evs2, hs2, heq⟩ :=
        ih post (newPolls ++ [q]) evs (setHeader hs "x-gladia-key" key) hrest
      exact ⟨evs2, hs2, by
        simpa [runFor, hj, hst, hd] using heq⟩
    | true =>
      rcases hcase with hf | ⟨t, ht⟩
      · rw [hf] at hd; exact absurd hd (by simp)
      · obtain ⟨evs2, hs2, heq⟩ :=
          ih post newPolls (evs ++ [⟨q.evt, t, pollsAll⟩])
            (setHeader hs "x-gladia-key" key) hrest
        exact ⟨evs2, hs2, by
          simpa [runFor, hj, hst, hd, ht] using heq⟩

/-- C4 as amended: when one job's poll raises during a round, the exception
aborts the rest of the round (the `try` wraps the whole for-loop): jobs
after the failing one are not processed, the swap is skipped so `self.polls`
is left exactly as it was — the failing job is kept, but so is every other
job including ones already dispatched as done — and the loop itself keeps
running (the error never stops the controller). -/
theorem C4_round_aborted_polls_unchanged (key : String)
    (resp : String → PollResult) (pre post : List TranscriptionPoll)
    (p : TranscriptionPoll) (hs : Headers)
    (hpre : ∀ q ∈ pre, processes_cleanly resp q)
    (hp : resp p.url = PollResult.raise2) :
    ∃ evs2 hs2,
      pollStep key resp (pre ++ p :: post) hs =
        ⟨evs2, pre ++ p :: post, hs2, false⟩ := by
  obtain ⟨evs2, hs2, heq⟩ :=
    runFor_abort_of_raise key resp (pre ++ p :: post) p hp pre post [] [] hs
      hpre
  exact ⟨evs2, hs2, by simp [pollStep, heq]⟩

/-- C4 witness: the amended statement at the concrete three-job round of
`C4resp`. -/
theorem C4_round_aborted_polls_unchanged_witness :
    ∃ evs2 hs2,
      pollStep "K" C4resp ([⟨"ua", 1⟩] ++ ⟨"ub", 2⟩ :: [⟨"uc", 3⟩]) [] =
        ⟨evs2, [⟨"ua", 1⟩] ++ ⟨"ub", 2⟩ :: [⟨"uc", 3⟩], hs2, false⟩ :=
  C4_round_aborted_polls_unchanged "K" C4resp [⟨"ua", 1⟩] [⟨"uc", 3⟩]
    ⟨"ub", 2⟩ []
    (by
      intro q hq
      rw [List.mem_singleton] at hq
      subst hq
      exact ⟨doneBody "first", Json.str "done", rfl, rfl,
        Or.inr ⟨Json.obj [("full_transcript", Json.str "first")], rfl⟩⟩)
    rfl

/-- C5 counterexample: the claim says the dispatched text is the
`full_transcript` field nested under `result.transcription`. At a done poll
whose `full_transcript` is "hello world", the value handed to
`use_transcription` (and thus to `evt.reply`) is the whole
`result.transcription` object, which is not the string "hello world". -/
theorem C5_reply_payload_counterexample :
    (pollStep "K" C5resp [C5poll] []).dispatches.map DispatchEvent.payload =
      [Json.obj [("full_transcript", Json.str "hello world")]] ∧
    Json.obj [("full_transcript", Json.str "hello world")] ≠
      Json.str "hello world" :=
  ⟨rfl, fun h => Json.noConfusion h⟩

/-- C5 as amended: when a poll observes terminal status done, the dispatched
reply is addressed to the job's originating message, but its text is the
entire `result.transcription` value of the poll response — the code passes
`response_json['result']['transcription']` itself to `use_transcription`,
not the `full_transcript` field inside it. -/
theorem C5_reply_addressed_with_transcription_object (key : String)
    (resp : String → PollResult) (p : TranscriptionPoll) (hs : Headers)
    (j s t : Json) (hj : resp p.url = PollResult.json j)
    (hst : jget j "status" = some s) (hd : isDone s = true)
    (ht : (jget j "result").bind (fun r => jget r "transcription") = some t) :
    (pollStep key resp [p] hs).dispatches = [⟨p.evt, t, [p]⟩] := by
  simp [pollStep, runFor, hj, hst, hd, ht]

/-- C5 witness: the amended statement at the concrete done poll of
`C5resp`. -/
theorem C5_reply_addressed_with_transcription_object_witness :
    (pollStep "K" C5resp [C5poll] []).dispatches =
      [⟨5, Json.obj [("full_transcript", Json.str "hello world")],
        [C5poll]⟩] :=
  C5_reply_addressed_with_transcription_object "K" C5resp C5poll []
    (doneBody "hello world") (Json.str "done")
    (Json.obj [("full_transcript", Json.str "hello world")]) rfl rfl rfl rfl

/-- C7 counterexample: the claim says both client calls succeed on every 2xx
status. At status 201 with a well-formed body, `upload_audio` takes the
`response.status != 200` branch and returns `None` even though the body
carries the asset identifier; `request_transcription` does the same with the
poll reference. -/
theorem C7_status_201_returns_none_counterexample :
    (upload_audio "K" [] ⟨201, C7body⟩).result = CallOutcome.ret none ∧
    jget C7body "audio_url" = some (Json.str "https://bucket/a.ogg") ∧
    (request_transcription "K" [] ⟨201, C7body2⟩).result =
      CallOutcome.ret none ∧
    jget C7body2 "result_url" = some (Json.str "https://api/poll/1") :=
  ⟨rfl, rfl, rfl, rfl⟩

/-- C7 as amended: `upload_audio` returns the asset identifier only when the
status is exactly 200, and `request_transcription` returns the poll
reference only when the status is exactly 200; on any other status —
including other 2xx codes such as 201 — each logs the response and returns
`None` (there is no typed failure value). -/
theorem C7_success_only_on_200 (api_key : String) (hs : Headers)
    (resp : HttpResponse) (a r : Json) :
    (resp.status = 200 → jget resp.body "audio_url" = some a →
      (upload_audio api_key hs resp).result = CallOutcome.ret (some a)) ∧
    (resp.status ≠ 200 →
      (upload_audio api_key hs resp).result = CallOutcome.ret none) ∧
    (resp.status = 200 → jget resp.body "result_url" = some r →
      (request_transcription api_key hs resp).result =
        CallOutcome.ret (some r)) ∧
    (resp.status ≠ 200 →
      (request_transcription api_key hs resp).result =
        CallOutcome.ret none) := by
  refine ⟨?_, ?_, ?_, ?_⟩
  · intro h200 ha; simp [upload_audio, h200, ha]
  · intro hne; simp [upload_audio, hne]
  · intro h200 hr; simp [request_transcription, h200, hr]
  · intro hne; simp [request_transcription, hne]

/-- C7 witness: the amended statement at a 200 upload and a 404
transcription request. -/
theorem C7_success_only_on_200_witness :
    (upload_audio "K" [] ⟨200, C7body⟩).result =
      CallOutcome.ret (some (Json.str "https://bucket/a.ogg")) ∧
    (request_transcription "K" [] ⟨404, C7body2⟩).result =
      CallOutcome.ret none :=
  ⟨(C7_success_only_on_200 "K" [] ⟨200, C7body⟩
      (Json.str "https://bucket/a.ogg") (Json.str "x")).1 rfl rfl,
   (C7_success_only_on_200 "K" [] ⟨404, C7body2⟩
      (Json.str "x") (Json.str "x")).2.2.2 (by decide)⟩

/-- C8 counterexample: job `C8J` (polled first) has its transport raise in
round 0 and is done in round 1, so the claim — instantiated at k = 0 —
requires exactly one dispatch for it. Because job `C8E`'s transport raises
later in round 1, the round's swap is skipped and the already-dispatched
`C8J` stays in `self.polls`; round 2 dispatches it again: the loop run
produces two dispatches addressed to `C8J`'s message. -/
theorem C8_duplicate_dispatch_counterexample :
    C8env 0 C8J.url = PollResult.raise2 ∧
    C8env 1 C8J.url = PollResult.json (doneBody "jay") ∧
    ((pollLoopAux "K" C8env 0 3 [C8J, C8E] [] []).1.filter
      (fun e => e.2.target == 1)).length = 2 :=
  ⟨rfl, rfl, rfl⟩

/-- C8 as amended: exactly one dispatch, after round k+1 and never before or
again, is guaranteed only when no other job's error aborts the rounds the
job takes part in — in particular when the job is alone in the registry: a
single job whose poll raises in round k and is done in round k+1 is
dispatched exactly once, tagged round k+1, after which the registry is empty
and the loop stops. (If another job's poll raises later in round k+1, the
swap is skipped and the job is dispatched again in a later round.) -/
theorem C8_single_job_one_dispatch (key : String)
    (env : Nat → String → PollResult) (k fuel : Nat)
    (p : TranscriptionPoll) (hs : Headers) (j s t : Json)
    (h0 : env k p.url = PollResult.raise2)
    (h1 : env (k + 1) p.url = PollResult.json j)
    (hst : jget j "status" = some s) (hd : isDone s = true)
    (ht : (jget j "result").bind (fun r => jget r "transcription") = some t) :
    pollLoopAux key env k (fuel + 1 + 1) [p] hs [] =
      ([(k + 1, ⟨p.evt, t, [p]⟩)], [], true) := by
  have s1 : pollStep key (env k) [p] hs =
      ⟨[], [p], setHeader hs "x-gladia-key" key, false⟩ := by
    simp [pollStep, runFor, h0]
  have s2 : pollStep key (env (k + 1)) [p]
      (setHeader hs "x-gladia-key" key) =
      ⟨[⟨p.evt, t, [p]⟩], [],
        setHeader (setHeader hs "x-gladia-key" key) "x-gladia-key" key,
        true⟩ := by
    simp [pollStep, runFor, h1, hst, hd, ht]
  simp [pollLoopAux, s1, s2]

/-- C8 witness: the amended statement for a single job with `C8wenv` (raise
in round 0, done afterwards). -/
theorem C8_single_job_one_dispatch_witness :
    pollLoopAux "K" C8wenv 0 (0 + 1 + 1) [⟨"w8", 4⟩] [] [] =
      ([(0 + 1, ⟨4, Json.obj [("full_transcript", Json.str "solo")],
        [⟨"w8", 4⟩]⟩)], [], true) :=
  C8_single_job_one_dispatch "K" C8wenv 0 0 ⟨"w8", 4⟩ []
    (doneBody "solo") (Json.str "done")
    (Json.obj [("full_transcript", Json.str "solo")]) rfl rfl rfl rfl rfl

/-- C9 counterexample: the claim says that at the moment dispatch is invoked
the registry no longer references the job. For the single done job `C9poll`,
the round's only dispatch records `self.polls = [C9poll]` at the moment
`use_transcription` is awaited — the registry still contains the very job
being dispatched, because the swap `self.polls = newPolls` only runs after
the round's for-loop. -/
theorem C9_registry_references_job_counterexample :
    (pollStep "K" C9resp [C9poll] []).dispatches.map
      DispatchEvent.pollsAtDispatch = [[C9poll]] ∧
    C9poll ∈ [C9poll] :=
  ⟨rfl, List.mem_singleton.mpr rfl⟩

/-- Helper: every dispatch the round's for-loop performs beyond those
already in the accumulator is recorded with the round-start registry
`pollsAll`. -/
theorem runFor_dispatch_record (key : String) (resp : String → PollResult)
    (pollsAll : List TranscriptionPoll) :
    ∀ (todo newPolls : List TranscriptionPoll) (evs : List DispatchEvent)
      (hs : Headers) (e : DispatchEvent),
      e ∈ (runFor key resp pollsAll todo newPolls evs hs).dispatches →
      e ∈ evs ∨ e.pollsAtDispatch = pollsAll := by
  intro todo
  induction todo with
  | nil =>
    intro np evs hs e he
    exact Or.inl (by simpa [runFor] using he)
  | cons p rest ih =>
    intro np evs hs e he
    cases hr : resp p.url with
    | raise2 =>
      simp [runFor, hr] at he
      exact Or.inl he
    | json j =>
      cases hst : jget j "status" with
      | none =>
        simp [runFor, hr, hst] at he
        exact Or.inl he
      | some s =>
        cases hd : isDone s with
        | false =>
          simp only [runFor, hr, hst, hd] at he
          exact ih _ _ _ _ he
        | true =>
          cases ht : (jget j "result").bind
              (fun r => jget r "transcription") with
          | none =>
            simp [runFor, hr, hst, hd, ht] at he
            exact Or.inl he
          | some t =>
            simp only [runFor, hr, hst, hd, ht] at he
            rcases ih _ _ _ _ he with h | h
            · rcases List.mem_append.mp h with h2 | h2
              · exact Or.inl h2
              · rw [List.mem_singleton] at h2
                subst h2
                exact Or.inr rfl
            · exact Or.inr h

/-- C9 as amended: a completed job is handed to the dispatcher before its
removal from the registry, not after: at the moment any dispatch of a round
is invoked, `self.polls` still holds the full round-start set (the job
included); jobs are removed only by the swap at the end of the round. -/
theorem C9_dispatch_sees_preround_registry (key : String)
    (resp : String → PollResult) (polls : List TranscriptionPoll)
    (hs : Headers) (e : DispatchEvent)
    (he : e ∈ (pollStep key resp polls hs).dispatches) :
    e.pollsAtDispatch = polls := by
  rw [pollStep_dispatches] at he
  rcases runFor_dispatch_record key resp polls polls [] [] hs e he with h | h
  · exact absurd h (List.not_mem_nil e)
  · exact h

/-- C9 witness: the amended statement at the concrete dispatch the done job
`C9poll` produces. -/
theorem C9_dispatch_sees_preround_registry_witness :
    DispatchEvent.pollsAtDispatch
      ⟨9, Json.obj [("full_transcript", Json.str "nine")], [C9poll]⟩ =
      [C9poll] :=
  C9_dispatch_sees_preround_registry "K" C9resp [C9poll] []
    ⟨9, Json.obj [("full_transcript", Json.str "nine")], [C9poll]⟩
    (by
      have h : (pollStep "K" C9resp [C9poll] ([] : Headers)).dispatches =
          [⟨9, Json.obj [("full_transcript", Json.str "nine")], [C9poll]⟩] :=
        rfl
      rw [h]
      exact List.mem_singleton.mpr rfl)

/-- C10 counterexample: the claim says no call stores the key in the shared
HTTP session's default headers and the shared client state is unchanged
after each call. Starting from empty session headers, one `upload_audio`
call leaves the session headers mapping `x-gladia-key` to the configured
key: the shared state changed. -/
theorem C10_shared_headers_mutated_counterexample :
    lookupHeader ([] : Headers) "x-gladia-key" = none ∧
    lookupHeader (upload_audio "K" [] ⟨200, Json.obj []⟩).headers
      "x-gladia-key" = some "K" :=
  ⟨rfl, rfl⟩

/-- Helper: a key that is not the one being filtered out is looked up the
same before and after the filter `setHeader` performs. -/
theorem lookupHeader_filter_ne (k k2 : String) (h : ¬ k2 = k) :
    ∀ hs : List (String × String),
      lookupHeader (hs.filter (fun p => p.1 != k2)) k = lookupHeader hs k := by
  intro hs
  induction hs with
  | nil => rfl
  | cons a t ih =>
    obtain ⟨ak, av⟩ := a
    by_cases hak : ak = k2
    · have hf : ((ak, av).1 != k2) = false := by simp [hak]
      have hne : (ak == k) = false := by
        rw [hak]
        simp only [beq_eq_false_iff_ne, ne_eq]
        exact h
      simp [List.filter_cons, hf, lookupHeader, hne, ih]
    · have hf : ((ak, av).1 != k2) = true := by simp [hak]
      simp [List.filter_cons, hf, lookupHeader, ih]

/-- Helper: `setHeader` with a different key leaves a lookup unchanged. -/
theorem lookupHeader_set_ne (hs : Headers) (k k2 v : String) (h : ¬ k2 = k) :
    lookupHeader (setHeader hs k2 v) k = lookupHeader hs k := by
  have hne : (k2 == k) = false := by
    simp only [beq_eq_false_iff_ne, ne_eq]
    exact h
  simp [setHeader, lookupHeader, hne, lookupHeader_filter_ne k k2 h hs]

/-- Helper: the session headers `upload_audio` leaves behind, whatever the
response was. -/
theorem upload_audio_headers (api_key : String) (hs : Headers)
    (resp : HttpResponse) :
    (upload_audio api_key hs resp).headers =
      setHeader (setHeader hs "x-gladia-key" api_key) "Content-Type"
        "multipart/form-data" := by
  by_cases hc : resp.status = 200
  · cases hcase : jget resp.body "audio_url" <;>
      simp [upload_audio, hc, hcase]
  · simp [upload_audio, hc]

/-- Helper: the session headers `request_transcription` leaves behind,
whatever the response was. -/
theorem request_transcription_headers (api_key : String) (hs : Headers)
    (resp : HttpResponse) :
    (request_transcription api_key hs resp).headers =
      setHeader hs "x-gladia-key" api_key := by
  by_cases hc : resp.status = 200
  · cases hcase : jget resp.body "result_url" <;>
      simp [request_transcription, hc, hcase]
  · simp [request_transcription, hc]

/-- Helper: the round's for-loop preserves the `x-gladia-key` session header
binding once it holds. -/
theorem runFor_headers_preserved (key : String) (resp : String → PollResult)
    (pollsAll : List TranscriptionPoll) :
    ∀ (todo newPolls : List TranscriptionPoll) (evs : List DispatchEvent)
      (hs : Headers),
      lookupHeader hs "x-gladia-key" = some key →
      lookupHeader (runFor key resp pollsAll todo newPolls evs hs).headers
        "x-gladia-key" = some key := by
  intro todo
  induction todo with
  | nil =>
    intro np evs hs h
    simpa [runFor] using h
  | cons p rest ih =>
    intro np evs hs h
    have h1 : lookupHeader (setHeader hs "x-gladia-key" key) "x-gladia-key" =
        some key := lookupHeader_set_self hs _ key
    cases hr : resp p.url with
    | raise2 => simp [runFor, hr, h1]
    | json j =>
      cases hst : jget j "status" with
      | none => simp [runFor, hr, hst, h1]
      | some s =>
        cases hd : isDone s with
        | false =>
          have h2 := ih (np ++ [p]) evs (setHeader hs "x-gladia-key" key) h1
          simpa [runFor, hr, hst, hd] using h2
        | true =>
          cases ht : (jget j "result").bind
              (fun r => jget r "transcription") with
          | none => simp [runFor, hr, hst, hd, ht, h1]
          | some t =>
            have h2 := ih np (evs ++ [⟨p.evt, t, pollsAll⟩])
              (setHeader hs "x-gladia-key" key) h1
            simpa [runFor, hr, hst, hd, ht] using h2

/-- Helper: a round over a non-empty job list leaves the session headers
mapping `x-gladia-key` to the configured key (the first iteration stores it;
later iterations re-store it). -/
theorem runFor_headers_key (key : String) (resp : String → PollResult)
    (pollsAll : List TranscriptionPoll) (p : TranscriptionPoll)
    (rest newPolls : List TranscriptionPoll) (evs : List DispatchEvent)
    (hs : Headers) :
    lookupHeader
      (runFor key resp pollsAll (p :: rest) newPolls evs hs).headers
      "x-gladia-key" = some key := by
  have h1 : lookupHeader (setHeader hs "x-gladia-key" key) "x-gladia-key" =
      some key := lookupHeader_set_self hs _ key
  cases hr : resp p.url with
  | raise2 => simp [runFor, hr, h1]
  | json j =>
    cases hst : jget j "status" with
    | none => simp [runFor, hr, hst, h1]
    | some s =>
      cases hd : isDone s with
      | false =>
        have h2 := runFor_headers_preserved key resp pollsAll rest
          (newPolls ++ [p]) evs (setHeader hs "x-gladia-key" key) h1
        simpa [runFor, hr, hst, hd] using h2
      | true =>
        cases ht : (jget j "result").bind
            (fun r => jget r "transcription") with
        | none => simp [runFor, hr, hst, hd, ht, h1]
        | some t =>
          have h2 := runFor_headers_preserved key resp pollsAll rest newPolls
            (evs ++ [⟨p.evt, t, pollsAll⟩]) (setHeader hs "x-gladia-key" key)
            h1
          simpa [runFor, hr, hst, hd, ht] using h2

/-- C10 as amended: every transcription client call stores the API key into
the shared HTTP session's default headers — mutating shared client state —
rather than attaching it per request: after `upload_audio`, after
`request_transcription`, and after any poll round over a non-empty registry,
the shared session headers map `x-gladia-key` to the configured key. -/
theorem C10_key_stored_in_shared_headers (api_key : String)
    (hs hs2 : Headers) (resp : HttpResponse) (rsp : String → PollResult)
    (p : TranscriptionPoll) (rest : List TranscriptionPoll) :
    lookupHeader (upload_audio api_key hs resp).headers "x-gladia-key" =
      some api_key ∧
    lookupHeader (request_transcription api_key hs resp).headers
      "x-gladia-key" = some api_key ∧
    lookupHeader (pollStep api_key rsp (p :: rest) hs2).headers
      "x-gladia-key" = some api_key := by
  refine ⟨?_, ?_, ?_⟩
  · rw [upload_audio_headers,
      lookupHeader_set_ne _ _ _ _ (by decide :
        ¬ "Content-Type" = "x-gladia-key")]
    exact lookupHeader_set_self hs _ api_key
  · rw [request_transcription_headers]
    exact lookupHeader_set_self hs _ api_key
  · rw [pollStep_headers]
    exact runFor_headers_key api_key rsp (p :: rest) p rest [] [] hs2
